import Mathlib

/-
Verification of the turn-routing workflow of the customer-service agent app
(src/part2-openai/community-contributions/OZ/lab2-customer_service_agent/app.py).

Modelling conventions:
- Python floats are modelled as exact rationals.
- The workflow_state dict, whose only key is "pending_approval", is an Option Bool;
  none models the key being absent.
- Each awaited Runner.run call site is an oracle function of the full history;
  none models the call raising an exception.
- Python str.lower and str.strip are modelled on ASCII input, which covers every
  string the workflow itself compares.
-/

/-- One chat message: the Python dict with keys "role" and "content". -/
structure Msg where
  role : String
  content : String
deriving DecidableEq, Repr

/-- Workflow state: the dict held in the gradio State workflow_state. The only key the
program ever writes is "pending_approval"; none models the key being absent. -/
abbrev WState := Option Bool

/-- Truthiness of state.get("pending_approval"): falsy when the key is absent or False. -/
def pendingApproval (s : WState) : Bool := s.getD false

/-- Output type of the classification agent (pydantic model ClassificationResponse). -/
structure ClassificationResponse where
  reason : String
  category : String
  confidence : ℚ
deriving DecidableEq

/-- Output type of the book agent. -/
structure BookResponse where
  reason : String
  response : String
deriving DecidableEq

/-- Output type of the clothing agent. -/
structure ClothingResponse where
  reason : String
  response : String
deriving DecidableEq

/-- Output type of the retention agent. -/
structure RetentionResponse where
  offer : String
  discount_percentage : ℚ
  response : String
deriving DecidableEq

/-- Output type of the order agent. -/
structure OrderResponse where
  human_approval : Bool
  order_item_name : String
  item_id : Int
  order_id : Int
  order_amount : ℚ
  response : String
deriving DecidableEq

/-- Error surfaced when an awaited collaborator call raises. -/
inductive RouterError where
  | classifierUnavailable
  | responderUnavailable
deriving DecidableEq

/-- The five collaborator call sites: Runner.run on each agent, given the full history,
either returns the agent's typed output or fails (none models a raised exception). -/
structure Collaborators where
  classify : List Msg → Option ClassificationResponse
  runBook : List Msg → Option BookResponse
  runClothing : List Msg → Option ClothingResponse
  runRetention : List Msg → Option RetentionResponse
  runOrder : List Msg → Option OrderResponse

/-- Python str.lower, modelled on ASCII letters. -/
def pyLower (s : String) : String := String.mk (s.data.map Char.toLower)

/-- Whitespace characters removed by Python str.strip on ASCII input. -/
def isPySpace (c : Char) : Bool :=
  c = ' ' || c = '\t' || c = '\n' || c = '\x0b' || c = '\x0c' || c = '\r'

/-- Python str.strip on ASCII input: drop leading and trailing whitespace. The workflow
itself never strips; this definition only serves to state which inputs would count as
affirmative after trimming. -/
def pyStrip (s : String) : String :=
  String.mk (((s.data.dropWhile isPySpace).reverse.dropWhile isPySpace).reverse)

/-- Round the fraction n / d (with d positive) to the nearest integer, ties to even, as
Python float-to-decimal formatting rounds. -/
def roundFracHalfEven (n : Int) (d : Nat) : Int :=
  let f := n.fdiv d
  let r2 := 2 * (n - f * d)
  if r2 < d then f
  else if (d : Int) < r2 then f + 1
  else if f % 2 = 0 then f else f + 1

/-- Two-digit rendering of a number of cents below 100. -/
def pad2 (n : Nat) : String := if n < 10 then "0" ++ toString n else toString n

/-- Python format specifier .2f applied to a float modelled as an exact rational: round to
the nearest cent (ties to even) and print with exactly two decimal digits. -/
def format2f (q : ℚ) : String :=
  let c := roundFracHalfEven (q.num * 100) q.den
  let sign := if c < 0 ∨ (c = 0 ∧ q.num < 0) then "-" else ""
  sign ++ toString (c.natAbs / 100) ++ "." ++ pad2 (c.natAbs % 100)

/-- Approval reply (app.py line 99). The source line ends in the three characters
U+201A U+00FA U+00D6, a mojibake-encoded check-mark emoji, present verbatim in the file. -/
def approvedMsg : String := "Order approved and sent to shipping! ‚úÖ"

/-- Cancellation reply (app.py line 101), ending in the mojibake bytes U+201A U+00F9 U+00E5
present verbatim in the file. -/
def cancelledMsg : String := "Order cancelled at your request. ‚ùå"

/-- Fallback apology for a category with no mapped agent (app.py line 119). -/
def fallbackMsg : String := "I\x27m sorry, I couldn\x27t categorize your request correctly."

/-- List of affirmative answers accepted by the approval check (app.py line 98). -/
def affirmatives : List String := ["yes", "y", "approve"]

/-- Names of the four sub-agents reachable through agent_map. -/
inductive AgentKind where
  | books
  | clothing
  | retention
  | order
deriving DecidableEq

/-- The dispatch dict agent_map (app.py lines 110-115): category string to sub-agent;
agent_map.get returns none for any key outside the four entries. -/
def agent_map (category : String) : Option AgentKind :=
  if category = "books" then some AgentKind.books
  else if category = "clothing" then some AgentKind.clothing
  else if category = "retention" then some AgentKind.retention
  else if category = "order" then some AgentKind.order
  else none

/-- The order-summary prompt built by the f-string on app.py line 128. -/
def orderSummary (o : OrderResponse) : String :=
  "Order summary: " ++ o.order_item_name ++ " ($" ++ format2f o.order_amount ++
    "). Approve this order? (yes/no)"

/-- Shallow embedding of process_workflow (app.py lines 92-131). The result triple is
(history, state, outcome): history and state are returned in every case, because the
Python function mutates the history list in place before its first await and only
assigns state keys outside any await, so a raised collaborator exception leaves the
appended user message in place and the state untouched. The outcome carries the
displayed (category, confidence) pair of a completed turn, or the surfaced error. -/
def process_workflow (co : Collaborators) (message : String) (history : List Msg)
    (state : WState) : List Msg × WState × Except RouterError (String × ℚ) :=
  let history := history ++ [⟨"user", message⟩]
  if pendingApproval state then
    let res := if pyLower message ∈ affirmatives then approvedMsg else cancelledMsg
    (history ++ [⟨"assistant", res⟩], some false, Except.ok ("Order", 1))
  else
    match co.classify history with
    | none => (history, state, Except.error RouterError.classifierUnavailable)
    | some class_out =>
      match agent_map class_out.category with
      | none =>
        (history ++ [⟨"assistant", fallbackMsg⟩], state,
          Except.ok (class_out.category, class_out.confidence))
      | some AgentKind.books =>
        match co.runBook history with
        | none => (history, state, Except.error RouterError.responderUnavailable)
        | some agent_out =>
          (history ++ [⟨"assistant", agent_out.response⟩], state,
            Except.ok (class_out.category, class_out.confidence))
      | some AgentKind.clothing =>
        match co.runClothing history with
        | none => (history, state, Except.error RouterError.responderUnavailable)
        | some agent_out =>
          (history ++ [⟨"assistant", agent_out.response⟩], state,
            Except.ok (class_out.category, class_out.confidence))
      | some AgentKind.retention =>
        match co.runRetention history with
        | none => (history, state, Except.error RouterError.responderUnavailable)
        | some agent_out =>
          (history ++ [⟨"assistant", agent_out.response⟩], state,
            Except.ok (class_out.category, class_out.confidence))
      | some AgentKind.order =>
        match co.runOrder history with
        | none => (history, state, Except.error RouterError.responderUnavailable)
        | some agent_out =>
          if class_out.category = "order" ∧ agent_out.human_approval = true then
            (history ++ [⟨"assistant", orderSummary agent_out⟩], some true,
              Except.ok (class_out.category, class_out.confidence))
          else
            (history ++ [⟨"assistant", agent_out.response⟩], state,
              Except.ok (class_out.category, class_out.confidence))

/-- Process a sequence of submitted messages, threading history and state through
process_workflow exactly as consecutive msg.submit events do. -/
def runTurns (co : Collaborators) (ms : List String) (p : List Msg × WState) :
    List Msg × WState :=
  match ms with
  | [] => p
  | m :: rest =>
    let r := process_workflow co m p.1 p.2
    runTurns co rest (r.1, r.2.1)

/-- The per-session component values of the gradio UI: the two gr.State values and the
three displayed components. history_state holds the very list object process_workflow
mutates in place. -/
structure SessionState where
  history_state : List Msg
  workflow_state : WState
  chatbot : List Msg
  category_label : String
  confidence_label : ℚ
deriving DecidableEq

/-- Session at app start: gr.State([]), gr.State({}), empty display components. -/
def initialSession : SessionState := ⟨[], none, [], "", 0⟩

/-- The msg.submit handler (app.py lines 150-154): run process_workflow on
(msg, history_state, workflow_state) and write its outputs to
(chatbot, workflow_state, category_label, confidence_label). history_state is not an
output, but it aliases the list process_workflow appends to, so it always carries the
updated history; on a raised exception no output component is written. -/
def submitMessage (co : Collaborators) (m : String) (ss : SessionState) : SessionState :=
  match process_workflow co m ss.history_state ss.workflow_state with
  | (h, st, Except.ok (cat, conf)) => ⟨h, st, h, cat, conf⟩
  | (h, _, Except.error _) => { ss with history_state := h }

/-- The clear.click handler (app.py line 156): write ([], \x7b\x7d, "", 0) to
(chatbot, workflow_state, category_label, confidence_label). history_state is not among
the handler outputs, so it keeps its value. -/
def clearClick (ss : SessionState) : SessionState :=
  { ss with
    chatbot := []
    workflow_state := none
    category_label := ""
    confidence_label := 0 }

/-- Equality of surfaced outcomes is decidable; core provides no such instance for Except. -/
instance exceptDecEq (ε α : Type) [DecidableEq ε] [DecidableEq α] :
    DecidableEq (Except ε α) := fun a b =>
  match a, b with
  | Except.error e, Except.error f =>
    if h : e = f then isTrue (by rw [h]) else
      isFalse (fun hh => h (by injection hh))
  | Except.error _, Except.ok _ => isFalse (fun hh => Except.noConfusion hh)
  | Except.ok _, Except.error _ => isFalse (fun hh => Except.noConfusion hh)
  | Except.ok x, Except.ok y =>
    if h : x = y then isTrue (by rw [h]) else
      isFalse (fun hh => h (by injection hh))

/-- Collaborator stub: every query classifies as books and the book agent recommends a
fixed title. -/
def stubBooksCo : Collaborators :=
  ⟨fun _ => some ⟨"fits the request", "books", mkRat 92 100⟩,
   fun _ => some ⟨"bestseller", "Try Atomic Habits!"⟩,
   fun _ => some ⟨"classic cut", "Try the denim jacket!"⟩,
   fun _ => some ⟨"keep the customer", 25, "Here is 25 percent off!"⟩,
   fun _ => some ⟨true, "Atomic Habits", 2, 1, mkRat 1999 100, "Ready to order."⟩⟩

/-- Collaborator stub: every query classifies as an order needing approval. -/
def stubOrderCo : Collaborators :=
  ⟨fun _ => some ⟨"wants to order", "order", mkRat 88 100⟩,
   fun _ => some ⟨"bestseller", "Try Atomic Habits!"⟩,
   fun _ => some ⟨"classic cut", "Try the denim jacket!"⟩,
   fun _ => some ⟨"keep the customer", 25, "Here is 25 percent off!"⟩,
   fun _ => some ⟨true, "Atomic Habits", 2, 1, mkRat 1999 100, "Ready to order."⟩⟩

/-- Collaborator stub on which every call raises. -/
def allFailCo : Collaborators :=
  ⟨fun _ => none, fun _ => none, fun _ => none, fun _ => none, fun _ => none⟩

/-- Collaborator stub that disagrees with stubBooksCo on the empty history only. -/
def stubBooksCoB : Collaborators :=
  ⟨fun h => if h = [] then none else stubBooksCo.classify h,
   fun h => if h = [] then none else stubBooksCo.runBook h,
   fun h => if h = [] then none else stubBooksCo.runClothing h,
   fun h => if h = [] then none else stubBooksCo.runRetention h,
   fun h => if h = [] then none else stubBooksCo.runOrder h⟩

/-- Collaborator stub returning an out-of-range confidence and an empty response text. -/
def badValuesCo : Collaborators :=
  ⟨fun _ => some ⟨"made up", "books", mkRat 5 1⟩,
   fun _ => some ⟨"no reason", ""⟩,
   fun _ => some ⟨"classic cut", "Try the denim jacket!"⟩,
   fun _ => some ⟨"keep the customer", mkRat 25 1, "Here is 25 percent off!"⟩,
   fun _ => some ⟨false, "none", 1, 1, mkRat 1 1, "Ready."⟩⟩

/-- Collaborator stub classifying into a category outside the closed set. -/
def weirdCategoryCo : Collaborators :=
  ⟨fun _ => some ⟨"made up", "gibberish", mkRat 3 2⟩,
   fun _ => some ⟨"bestseller", "Try Atomic Habits!"⟩,
   fun _ => some ⟨"classic cut", "Try the denim jacket!"⟩,
   fun _ => some ⟨"keep the customer", mkRat 25 1, "Here is 25 percent off!"⟩,
   fun _ => some ⟨false, "none", 1, 1, mkRat 1 1, "Ready."⟩⟩

/-- Collaborator stub with the same classifier as weirdCategoryCo but responders that
always raise, to witness that no responder is consulted on an unmapped category. -/
def weirdCategoryCoB : Collaborators :=
  ⟨fun _ => some ⟨"made up", "gibberish", mkRat 3 2⟩,
   fun _ => none, fun _ => none, fun _ => none, fun _ => none⟩

/-- True when a turn completed, false when a collaborator failure was surfaced. -/
def turnOk (r : List Msg × WState × Except RouterError (String × ℚ)) : Bool :=
  match r.2.2 with
  | Except.ok _ => true
  | Except.error _ => false

example : pyLower "YES" = "yes" := by decide

example : pyStrip " yes " = "yes" := by decide

example : format2f (mkRat 1999 100) = "19.99" := by decide

example : format2f (mkRat 1 8) = "0.12" := by decide

example : format2f (mkRat 5 1) = "5.00" := by decide

example :
    process_workflow stubBooksCo "a good book" [] none =
      ([⟨"user", "a good book"⟩, ⟨"assistant", "Try Atomic Habits!"⟩], none,
        Except.ok ("books", mkRat 92 100)) := by
  decide

theorem agent_map_books_eq : agent_map "books" = some AgentKind.books := rfl

theorem agent_map_clothing_eq : agent_map "clothing" = some AgentKind.clothing := rfl

theorem agent_map_retention_eq : agent_map "retention" = some AgentKind.retention := rfl

theorem agent_map_order_eq : agent_map "order" = some AgentKind.order := rfl

theorem agent_map_none_of_unmapped (c : String) (h1 : c ≠ "books") (h2 : c ≠ "clothing")
    (h3 : c ≠ "retention") (h4 : c ≠ "order") : agent_map c = none := by
  simp [agent_map, h1, h2, h3, h4]

theorem pw_pending_eq (co : Collaborators) (m : String) (hist : List Msg) (s : WState)
    (hs : pendingApproval s = true) :
    process_workflow co m hist s =
      (hist ++ [⟨"user", m⟩, ⟨"assistant",
          if pyLower m ∈ affirmatives then approvedMsg else cancelledMsg⟩],
        some false, Except.ok ("Order", 1)) := by
  simp [process_workflow, hs]

/-- C1: a turn processed with pendingApproval false, whose classification has category
"order" and whose order result has human_approval true, transitions to AwaitingApproval
(pending_approval set to true) and appends exactly the order-summary prompt, with the
amount formatted to two decimal places. -/
theorem claim1_order_approval_summary (co : Collaborators) (m : String) (hist : List Msg)
    (s : WState) (c : ClassificationResponse) (o : OrderResponse)
    (hs : pendingApproval s = false)
    (hc : co.classify (hist ++ [⟨"user", m⟩]) = some c)
    (hcat : c.category = "order")
    (ho : co.runOrder (hist ++ [⟨"user", m⟩]) = some o)
    (ha : o.human_approval = true) :
    process_workflow co m hist s =
      (hist ++ [⟨"user", m⟩, ⟨"assistant",
          "Order summary: " ++ o.order_item_name ++ " ($" ++ format2f o.order_amount ++
            "). Approve this order? (yes/no)"⟩],
        some true, Except.ok (c.category, c.confidence)) := by
  simp [process_workflow, hs, hc, hcat, ho, ha, agent_map, orderSummary]

/-- Witness for C1: a concrete order turn whose 19.99 amount is printed as 19.99. -/
theorem claim1_order_approval_summary_witness :
    process_workflow stubOrderCo "I want to order book 2" [] none =
      ([⟨"user", "I want to order book 2"⟩,
        ⟨"assistant", "Order summary: Atomic Habits ($19.99). Approve this order? (yes/no)"⟩],
       some true, Except.ok ("order", mkRat 88 100)) := by
  have h0 := claim1_order_approval_summary stubOrderCo "I want to order book 2" [] none
    ⟨"wants to order", "order", mkRat 88 100⟩
    ⟨true, "Atomic Habits", 2, 1, mkRat 1999 100, "Ready to order."⟩
    rfl rfl rfl rfl rfl
  exact h0.trans (by decide)

/-- C2 as stated is false at concrete inputs: the approval reply appended by the code is
not the bare fixed text (it carries a trailing mojibake suffix), and the input " yes "
is affirmative after trimming yet receives the cancellation reply, because the check
lowercases without stripping. -/
theorem claim2_counterexample :
    (process_workflow stubBooksCo "yes" [] (some true)).1 =
        [⟨"user", "yes"⟩, ⟨"assistant", approvedMsg⟩] ∧
      approvedMsg ≠ "Order approved and sent to shipping!" ∧
      pyStrip " yes " = "yes" ∧
      (process_workflow stubBooksCo " yes " [] (some true)).1 =
        [⟨"user", " yes "⟩, ⟨"assistant", cancelledMsg⟩] ∧
      cancelledMsg ≠ "Order cancelled at your request." := by
  exact ⟨by decide, by decide, by decide, by decide, by decide⟩

/-- C2 amended: while pendingApproval is true, the reply is the approval text (with its
trailing mojibake suffix) when the lowercased but untrimmed input is one of yes, y or
approve, and the cancellation text (with its suffix) otherwise; pending_approval is set
to false and the displayed pair is the sentinel ("Order", 1). -/
theorem claim2_amended_confirmation_reply (co : Collaborators) (m : String)
    (hist : List Msg) (s : WState) (hs : pendingApproval s = true) :
    process_workflow co m hist s =
      (hist ++ [⟨"user", m⟩, ⟨"assistant",
          if pyLower m ∈ affirmatives then approvedMsg else cancelledMsg⟩],
        some false, Except.ok ("Order", 1)) :=
  pw_pending_eq co m hist s hs

/-- Witness for the amended C2 at the affirmative input YES. -/
theorem claim2_amended_confirmation_reply_witness :
    process_workflow stubBooksCo "YES" [] (some true) =
      ([⟨"user", "YES"⟩, ⟨"assistant", approvedMsg⟩], some false,
        Except.ok ("Order", 1)) := by
  have h0 := claim2_amended_confirmation_reply stubBooksCo "YES" [] (some true) rfl
  exact h0.trans (by decide)

/-- C4: a turn processed with pendingApproval false whose classification category has no
mapped responder appends exactly the fallback apology, leaves the state unchanged,
reports the raw category and confidence, and invokes no responder: the outcome is the
same under any other collaborator record with the same classifier output. -/
theorem claim4_unmapped_category (co co2 : Collaborators) (m : String) (hist : List Msg)
    (s : WState) (c : ClassificationResponse)
    (hs : pendingApproval s = false)
    (hc : co.classify (hist ++ [⟨"user", m⟩]) = some c)
    (hc2 : co2.classify (hist ++ [⟨"user", m⟩]) = some c)
    (h1 : c.category ≠ "books") (h2 : c.category ≠ "clothing")
    (h3 : c.category ≠ "retention") (h4 : c.category ≠ "order") :
    process_workflow co m hist s =
        (hist ++ [⟨"user", m⟩, ⟨"assistant", fallbackMsg⟩], s,
          Except.ok (c.category, c.confidence)) ∧
      process_workflow co m hist s = process_workflow co2 m hist s := by
  have hmap := agent_map_none_of_unmapped c.category h1 h2 h3 h4
  constructor
  · simp [process_workflow, hs, hc, hmap]
  · simp [process_workflow, hs, hc, hc2, hmap]

/-- Witness for C4: an unmapped category under working and failing responders. -/
theorem claim4_unmapped_category_witness :
    process_workflow weirdCategoryCo "hi there" [] none =
        ([⟨"user", "hi there"⟩, ⟨"assistant", fallbackMsg⟩], none,
          Except.ok ("gibberish", mkRat 3 2)) ∧
      process_workflow weirdCategoryCo "hi there" [] none =
        process_workflow weirdCategoryCoB "hi there" [] none := by
  have h0 := claim4_unmapped_category weirdCategoryCo weirdCategoryCoB "hi there" []
    none ⟨"made up", "gibberish", mkRat 3 2⟩ rfl rfl rfl (by decide) (by decide)
    (by decide) (by decide)
  exact ⟨h0.1.trans (by decide), h0.2⟩

/-- C7: a turn processed while pendingApproval is true has the same outcome under any two
collaborator records (neither classifier nor responder is consulted), and its displayed
pair is the fixed sentinel ("Order", 1). -/
theorem claim7_confirmation_independent (co co2 : Collaborators) (m : String)
    (hist : List Msg) (s : WState) (hs : pendingApproval s = true) :
    process_workflow co m hist s = process_workflow co2 m hist s ∧
      (process_workflow co m hist s).2.2 = Except.ok ("Order", 1) := by
  refine ⟨(pw_pending_eq co m hist s hs).trans (pw_pending_eq co2 m hist s hs).symm, ?_⟩
  rw [pw_pending_eq co m hist s hs]

/-- Witness for C7: a confirmation turn under working and failing collaborators. -/
theorem claim7_confirmation_independent_witness :
    (process_workflow stubBooksCo "hmm" [] (some true) =
        process_workflow allFailCo "hmm" [] (some true)) ∧
      (process_workflow stubBooksCo "hmm" [] (some true)).2.2 =
        Except.ok ("Order", 1) :=
  claim7_confirmation_independent stubBooksCo allFailCo "hmm" [] (some true) rfl

/-- C10: the affirmative check lowercases the raw message and does not strip it, so an
input that is affirmative only after trimming is treated as negative and receives the
cancellation reply. -/
theorem claim10_untrimmed_check (co : Collaborators) (m : String) (hist : List Msg)
    (s : WState) (hs : pendingApproval s = true)
    (htrim : pyLower (pyStrip m) ∈ affirmatives)
    (hraw : pyLower m ∉ affirmatives) :
    process_workflow co m hist s =
      (hist ++ [⟨"user", m⟩, ⟨"assistant", cancelledMsg⟩], some false,
        Except.ok ("Order", 1)) := by
  rw [pw_pending_eq co m hist s hs, if_neg hraw]

/-- Witness for C10 at the input " yes ", affirmative after trimming only. -/
theorem claim10_untrimmed_check_witness :
    process_workflow stubBooksCo " yes " [] (some true) =
      ([⟨"user", " yes "⟩, ⟨"assistant", cancelledMsg⟩], some false,
        Except.ok ("Order", 1)) := by
  have h0 := claim10_untrimmed_check stubBooksCo " yes " [] (some true) rfl (by decide)
    (by decide)
  exact h0.trans (by decide)

theorem pendingApproval_some (b : Bool) : pendingApproval (some b) = b := rfl

theorem pendingApproval_none : pendingApproval none = false := rfl

theorem category_ne_order_of_map (c : String) (k : AgentKind)
    (hk : k ≠ AgentKind.order) (hmap : agent_map c = some k) : c ≠ "order" := by
  intro hh
  rw [hh, agent_map_order_eq] at hmap
  exact hk (Option.some.inj hmap).symm

theorem agent_map_order_inv (c : String) (h : agent_map c = some AgentKind.order) :
    c = "order" := by
  by_cases h1 : c = "books"
  · rw [h1] at h; simp [agent_map] at h
  · by_cases h2 : c = "clothing"
    · rw [h2] at h; simp [agent_map] at h
    · by_cases h3 : c = "retention"
      · rw [h3] at h; simp [agent_map] at h
      · by_cases h4 : c = "order"
        · exact h4
        · rw [agent_map_none_of_unmapped c h1 h2 h3 h4] at h
          exact Option.noConfusion h

theorem pw_shape (co : Collaborators) (m : String) (hist : List Msg) (s : WState) :
    (∃ e, process_workflow co m hist s = (hist ++ [⟨"user", m⟩], s, Except.error e)) ∨
      (∃ a s2 cat conf, process_workflow co m hist s =
        (hist ++ [⟨"user", m⟩, ⟨"assistant", a⟩], s2, Except.ok (cat, conf))) := by
  by_cases hs : pendingApproval s = true
  · right
    exact ⟨_, _, _, _, pw_pending_eq co m hist s hs⟩
  · have hs2 : pendingApproval s = false := by simpa using hs
    rcases hcl : co.classify (hist ++ [⟨"user", m⟩]) with _ | c
    · left
      exact ⟨RouterError.classifierUnavailable, by simp [process_workflow, hs2, hcl]⟩
    · rcases hmap : agent_map c.category with _ | k
      · right
        exact ⟨fallbackMsg, s, c.category, c.confidence,
          by simp [process_workflow, hs2, hcl, hmap]⟩
      · cases k
        · rcases hb : co.runBook (hist ++ [⟨"user", m⟩]) with _ | b
          · left
            exact ⟨RouterError.responderUnavailable,
              by simp [process_workflow, hs2, hcl, hmap, hb]⟩
          · right
            exact ⟨b.response, s, c.category, c.confidence,
              by simp [process_workflow, hs2, hcl, hmap, hb]⟩
        · rcases hb : co.runClothing (hist ++ [⟨"user", m⟩]) with _ | b
          · left
            exact ⟨RouterError.responderUnavailable,
              by simp [process_workflow, hs2, hcl, hmap, hb]⟩
          · right
            exact ⟨b.response, s, c.category, c.confidence,
              by simp [process_workflow, hs2, hcl, hmap, hb]⟩
        · rcases hb : co.runRetention (hist ++ [⟨"user", m⟩]) with _ | b
          · left
            exact ⟨RouterError.responderUnavailable,
              by simp [process_workflow, hs2, hcl, hmap, hb]⟩
          · right
            exact ⟨b.response, s, c.category, c.confidence,
              by simp [process_workflow, hs2, hcl, hmap, hb]⟩
        · rcases hb : co.runOrder (hist ++ [⟨"user", m⟩]) with _ | b
          · left
            exact ⟨RouterError.responderUnavailable,
              by simp [process_workflow, hs2, hcl, hmap, hb]⟩
          · by_cases hcond : c.category = "order" ∧ b.human_approval = true
            · right
              exact ⟨orderSummary b, some true, c.category, c.confidence,
                by simp [process_workflow, hs2, hcl, hmap, hb, hcond,
                  agent_map_order_eq]⟩
            · right
              exact ⟨b.response, s, c.category, c.confidence,
                by simp [process_workflow, hs2, hcl, hmap, hb, hcond]⟩

theorem pending_after_step (co : Collaborators) (m : String) (hist : List Msg)
    (s : WState) :
    pendingApproval (process_workflow co m hist s).2.1 = true ↔
      (pendingApproval s = false ∧
        ∃ c o, co.classify (hist ++ [⟨"user", m⟩]) = some c ∧ c.category = "order" ∧
          co.runOrder (hist ++ [⟨"user", m⟩]) = some o ∧ o.human_approval = true) := by
  by_cases hs : pendingApproval s = true
  · rw [pw_pending_eq co m hist s hs]
    simp [hs, pendingApproval_some]
  · have hs2 : pendingApproval s = false := by simpa using hs
    rcases hcl : co.classify (hist ++ [⟨"user", m⟩]) with _ | c
    · simp [process_workflow, hs2, hcl]
    · rcases hmap : agent_map c.category with _ | k
      · have hcat : c.category ≠ "order" := by
          intro hh
          rw [hh, agent_map_order_eq] at hmap
          exact Option.noConfusion hmap
        simp [process_workflow, hs2, hcl, hmap, hcat]
      · cases k
        · have hcat := category_ne_order_of_map c.category AgentKind.books
            (by decide) hmap
          rcases hb : co.runBook (hist ++ [⟨"user", m⟩]) with _ | b <;>
            simp [process_workflow, hs2, hcl, hmap, hb, hcat]
        · have hcat := category_ne_order_of_map c.category AgentKind.clothing
            (by decide) hmap
          rcases hb : co.runClothing (hist ++ [⟨"user", m⟩]) with _ | b <;>
            simp [process_workflow, hs2, hcl, hmap, hb, hcat]
        · have hcat := category_ne_order_of_map c.category AgentKind.retention
            (by decide) hmap
          rcases hb : co.runRetention (hist ++ [⟨"user", m⟩]) with _ | b <;>
            simp [process_workflow, hs2, hcl, hmap, hb, hcat]
        · have hcat : c.category = "order" := agent_map_order_inv c.category hmap
          rcases hb : co.runOrder (hist ++ [⟨"user", m⟩]) with _ | b
          · simp [process_workflow, hs2, hcl, hmap, hb]
          · by_cases hap : b.human_approval = true
            · simp [process_workflow, hs2, hcl, hmap, hb, hcat, hap,
                agent_map_order_eq, pendingApproval_some]
            · have hap2 : b.human_approval = false := by simpa using hap
              simp [process_workflow, hs2, hcl, hmap, hb, hcat, hap2,
                agent_map_order_eq]

theorem runTurns_append (co : Collaborators) (ms : List String) (m : String)
    (p : List Msg × WState) :
    runTurns co (ms ++ [m]) p =
      ((process_workflow co m (runTurns co ms p).1 (runTurns co ms p).2).1,
        (process_workflow co m (runTurns co ms p).1 (runTurns co ms p).2).2.1) := by
  induction ms generalizing p with
  | nil => rfl
  | cons a rest ih =>
    simp only [List.cons_append, runTurns]
    exact ih _

/-- C3: from the initial session (empty history, empty state dict), pendingApproval is
false before any turn, and after any sequence of turns it is true exactly when the final
turn began with pendingApproval false, its classification returned category "order", and
the order agent returned human_approval true; after every other turn it is false. -/
theorem claim3_pending_iff (co : Collaborators) :
    pendingApproval (runTurns co [] ([], none)).2 = false ∧
      ∀ ms m,
        (pendingApproval (runTurns co (ms ++ [m]) ([], none)).2 = true ↔
          (pendingApproval (runTurns co ms ([], none)).2 = false ∧
            ∃ c o,
              co.classify ((runTurns co ms ([], none)).1 ++ [⟨"user", m⟩]) = some c ∧
                c.category = "order" ∧
                co.runOrder ((runTurns co ms ([], none)).1 ++ [⟨"user", m⟩]) = some o ∧
                o.human_approval = true)) := by
  refine ⟨rfl, fun ms m => ?_⟩
  rw [runTurns_append]
  exact pending_after_step co m (runTurns co ms ([], none)).1 (runTurns co ms ([], none)).2

/-- Witness for C3: one order turn from the initial session sets pendingApproval. -/
theorem claim3_pending_iff_witness :
    pendingApproval (runTurns stubOrderCo ["order book 2"] ([], none)).2 = true := by
  have h0 := ((claim3_pending_iff stubOrderCo).2 [] "order book 2").mpr
  exact h0 ⟨rfl, ⟨"wants to order", "order", mkRat 88 100⟩,
    ⟨true, "Atomic Habits", 2, 1, mkRat 1999 100, "Ready to order."⟩, rfl, rfl, rfl, rfl⟩

/-- C5 is false as stated: a classification with confidence 5 (outside the unit interval)
and an empty responder text complete the turn normally (the empty reply is appended and
confidence 5 is displayed), and a category outside the closed set completes the turn
with the apology fallback; none of these values is treated as a collaborator failure. -/
theorem claim5_counterexample :
    process_workflow badValuesCo "hello" [] none =
        ([⟨"user", "hello"⟩, ⟨"assistant", ""⟩], none,
          Except.ok ("books", mkRat 5 1)) ∧
      process_workflow weirdCategoryCo "hello" [] none =
        ([⟨"user", "hello"⟩, ⟨"assistant", fallbackMsg⟩], none,
          Except.ok ("gibberish", mkRat 3 2)) := by
  exact ⟨by decide, by decide⟩

/-- C5 amended: the router performs no semantic validation of collaborator results.
Whenever each collaborator call on the turn's history returns a well-typed value, the
turn completes, whatever the category string, the confidence (even outside the unit
interval) or the response text (even empty): no returned value is rejected. -/
theorem claim5_amended_no_validation (co : Collaborators) (m : String) (hist : List Msg)
    (s : WState)
    (hcl : co.classify (hist ++ [⟨"user", m⟩]) ≠ none)
    (hbk : co.runBook (hist ++ [⟨"user", m⟩]) ≠ none)
    (hcth : co.runClothing (hist ++ [⟨"user", m⟩]) ≠ none)
    (hrt : co.runRetention (hist ++ [⟨"user", m⟩]) ≠ none)
    (hor : co.runOrder (hist ++ [⟨"user", m⟩]) ≠ none) :
    turnOk (process_workflow co m hist s) = true := by
  by_cases hs : pendingApproval s = true
  · rw [pw_pending_eq co m hist s hs]
    rfl
  · have hs2 : pendingApproval s = false := by simpa using hs
    rcases Option.ne_none_iff_exists'.mp hcl with ⟨c, hc⟩
    rcases hmap : agent_map c.category with _ | k
    · simp [turnOk, process_workflow, hs2, hc, hmap]
    · cases k
      · rcases Option.ne_none_iff_exists'.mp hbk with ⟨b, hb⟩
        simp [turnOk, process_workflow, hs2, hc, hmap, hb]
      · rcases Option.ne_none_iff_exists'.mp hcth with ⟨b, hb⟩
        simp [turnOk, process_workflow, hs2, hc, hmap, hb]
      · rcases Option.ne_none_iff_exists'.mp hrt with ⟨b, hb⟩
        simp [turnOk, process_workflow, hs2, hc, hmap, hb]
      · rcases Option.ne_none_iff_exists'.mp hor with ⟨b, hb⟩
        by_cases hcond : c.category = "order" ∧ b.human_approval = true
        · simp [turnOk, process_workflow, hs2, hc, hmap, hb, hcond, agent_map_order_eq]
        · simp [turnOk, process_workflow, hs2, hc, hmap, hb, hcond]

/-- Witness for the amended C5 at the out-of-range collaborator values. -/
theorem claim5_amended_no_validation_witness :
    turnOk (process_workflow badValuesCo "hello" [] none) = true :=
  claim5_amended_no_validation badValuesCo "hello" [] none (by decide) (by decide)
    (by decide) (by decide) (by decide)

/-- C6: every turn either fails, surfacing the collaborator error with the user message
appended, no assistant message appended and the state unchanged, or completes having
appended exactly one assistant message after the user message; and the outcome depends
on the collaborators only through their values at the turn's single history, so no
collaborator call is retried or repeated with any other input. -/
theorem claim6_failure_no_retry (co co2 : Collaborators) (m : String) (hist : List Msg)
    (s : WState) :
    ((∃ e, process_workflow co m hist s = (hist ++ [⟨"user", m⟩], s, Except.error e)) ∨
      (∃ a s2 cat conf, process_workflow co m hist s =
        (hist ++ [⟨"user", m⟩, ⟨"assistant", a⟩], s2, Except.ok (cat, conf)))) ∧
    (co.classify (hist ++ [⟨"user", m⟩]) = co2.classify (hist ++ [⟨"user", m⟩]) →
      co.runBook (hist ++ [⟨"user", m⟩]) = co2.runBook (hist ++ [⟨"user", m⟩]) →
      co.runClothing (hist ++ [⟨"user", m⟩]) = co2.runClothing (hist ++ [⟨"user", m⟩]) →
      co.runRetention (hist ++ [⟨"user", m⟩]) = co2.runRetention (hist ++ [⟨"user", m⟩]) →
      co.runOrder (hist ++ [⟨"user", m⟩]) = co2.runOrder (hist ++ [⟨"user", m⟩]) →
      process_workflow co m hist s = process_workflow co2 m hist s) := by
  refine ⟨pw_shape co m hist s, fun h1 h2 h3 h4 h5 => ?_⟩
  simp only [process_workflow]
  rw [h1, h2, h3, h4, h5]

/-- Witness for C6: two collaborator records agreeing on the turn's history but not on
other histories produce the same outcome. -/
theorem claim6_failure_no_retry_witness :
    process_workflow stubBooksCo "hello" [] none =
      process_workflow stubBooksCoB "hello" [] none :=
  (claim6_failure_no_retry stubBooksCo stubBooksCoB "hello" [] none).2
    rfl rfl rfl rfl rfl

/-- C8: every turn, completed or failed, returns a history that extends the prior
history by an appended suffix, hence is at least as long. -/
theorem claim8_history_append_only (co : Collaborators) (m : String) (hist : List Msg)
    (s : WState) :
    (∃ t, (process_workflow co m hist s).1 = hist ++ t) ∧
      hist.length ≤ (process_workflow co m hist s).1.length := by
  rcases pw_shape co m hist s with ⟨e, he⟩ | ⟨a, s2, cat, conf, he⟩ <;> rw [he] <;>
    exact ⟨⟨_, rfl⟩, by simp⟩

/-- C9 at the failing input: after one completed turn, the clear handler resets the
chatbot display, the workflow state and both labels, but history_state is not among its
outputs, so the non-empty conversation history survives the clear, and the next
submitted turn is processed against, and re-displays, the old conversation. -/
theorem claim9_clear_keeps_history :
    (clearClick (submitMessage stubBooksCo "hello" initialSession)).chatbot = [] ∧
      (clearClick (submitMessage stubBooksCo "hello" initialSession)).workflow_state =
        none ∧
      (clearClick (submitMessage stubBooksCo "hello" initialSession)).category_label =
        "" ∧
      (clearClick (submitMessage stubBooksCo "hello" initialSession)).confidence_label =
        0 ∧
      (clearClick (submitMessage stubBooksCo "hello" initialSession)).history_state =
        [⟨"user", "hello"⟩, ⟨"assistant", "Try Atomic Habits!"⟩] ∧
      (submitMessage stubBooksCo "and now?"
          (clearClick (submitMessage stubBooksCo "hello" initialSession))).chatbot =
        [⟨"user", "hello"⟩, ⟨"assistant", "Try Atomic Habits!"⟩,
          ⟨"user", "and now?"⟩, ⟨"assistant", "Try Atomic Habits!"⟩] := by
  exact ⟨rfl, rfl, rfl, rfl, rfl, rfl⟩
